import Mathlib

/-!
# Verification of the cachetclient HTTP API client

A shallow embedding of `cachetclient/client.py` and `cachetclient/cachet.py`.

* Python JSON values are modelled by `Json`; `Json.dumps` models
  `json.dumps(...)` with its default separators and `Json.dumpsInd` models
  `json.dumps(..., indent=2)`.
* Keyword-argument dictionaries (`**kwargs`) are modelled by association
  lists (`Kw`) in insertion order, as Python dicts preserve insertion order.
* The `requests` HTTP layer is modelled by an oracle `http : Request →
  Response` passed to every operation; a `Response` carries a status code and
  an `Option Json` body (`none` models a body that fails to decode as JSON).
* Every operation returns an `OpResult`: the (possibly updated) client
  state, the list of HTTP requests actually issued, and an `Except` value
  whose `error` constructor models a raised Python exception.
-/

set_option autoImplicit false

/-- A Python/JSON value, as handled by the `json` module. Numbers are
modelled as integers (the client never manipulates number values). -/
inductive Json : Type where
  | null : Json
  | bool : Bool → Json
  | num : Int → Json
  | str : String → Json
  | arr : List Json → Json
  | obj : List (String × Json) → Json

def hexDigit (n : Nat) : Char :=
  if n < 10 then Char.ofNat (48 + n) else Char.ofNat (87 + n)

def hex4 (n : Nat) : String :=
  String.mk [hexDigit (n / 4096 % 16), hexDigit (n / 256 % 16),
             hexDigit (n / 16 % 16), hexDigit (n % 16)]

/-- Escaping of one character inside a JSON string literal, as performed by
Python `json.dumps` with its default `ensure_ascii=True`: the two-character
escapes for quote, backslash and common control characters, and `\uXXXX`
escapes (surrogate pairs above the BMP) for everything outside the printable
ASCII range `0x20`–`0x7e`. -/
def escChar (ch : Char) : String :=
  if ch = Char.ofNat 34 then "\\\""
  else if ch = Char.ofNat 92 then "\\\\"
  else if ch = Char.ofNat 10 then "\\n"
  else if ch = Char.ofNat 13 then "\\r"
  else if ch = Char.ofNat 9 then "\\t"
  else if ch = Char.ofNat 8 then "\\b"
  else if ch = Char.ofNat 12 then "\\f"
  else if ch.toNat < 32 ∨ ch.toNat > 126 then
    if ch.toNat ≥ 65536 then
      "\\u" ++ hex4 (55296 + (ch.toNat - 65536) / 1024) ++
      "\\u" ++ hex4 (56320 + (ch.toNat - 65536) % 1024)
    else "\\u" ++ hex4 ch.toNat
  else String.singleton ch

/-- A JSON string literal: `json.dumps` applied to a Python `str`. -/
def jsonEscape (s : String) : String :=
  "\"" ++ String.join (s.toList.map escChar) ++ "\""

mutual

/-- `json.dumps(value)` with the default separators `", "` and `": "`,
as used by `CachetClient._request` to encode request bodies. -/
def Json.dumps : Json → String
  | .null => "null"
  | .bool true => "true"
  | .bool false => "false"
  | .num n => toString n
  | .str s => jsonEscape s
  | .arr xs => "[" ++ Json.dumpsList xs ++ "]"
  | .obj kvs => "\x7b" ++ Json.dumpsObj kvs ++ "\x7d"

def Json.dumpsList : List Json → String
  | [] => ""
  | [x] => Json.dumps x
  | x :: y :: rest => Json.dumps x ++ ", " ++ Json.dumpsList (y :: rest)

def Json.dumpsObj : List (String × Json) → String
  | [] => ""
  | [(k, v)] => jsonEscape k ++ ": " ++ Json.dumps v
  | (k, v) :: p :: rest =>
      jsonEscape k ++ ": " ++ Json.dumps v ++ ", " ++ Json.dumpsObj (p :: rest)

end

def indentPad (lvl : Nat) : String :=
  String.mk (List.replicate (2 * lvl) (Char.ofNat 32))

mutual

/-- `json.dumps(value, indent=2)` at nesting level `lvl`: each array element
and object member on its own line, indented two spaces per level, with item
separator `","` and key separator `": "` (Python switches the item separator
from `", "` to `","` whenever `indent` is given). Empty containers print
without newlines. -/
def Json.dumpsInd : Json → Nat → String
  | .null, _ => "null"
  | .bool true, _ => "true"
  | .bool false, _ => "false"
  | .num n, _ => toString n
  | .str s, _ => jsonEscape s
  | .arr [], _ => "[]"
  | .arr (x :: xs), lvl =>
      "[\n" ++ indentPad (lvl + 1) ++ Json.dumpsInd x (lvl + 1) ++
      Json.dumpsIndList xs (lvl + 1) ++ "\n" ++ indentPad lvl ++ "]"
  | .obj [], _ => "\x7b\x7d"
  | .obj ((k, v) :: kvs), lvl =>
      "\x7b\n" ++ indentPad (lvl + 1) ++ jsonEscape k ++ ": " ++
      Json.dumpsInd v (lvl + 1) ++ Json.dumpsIndObj kvs (lvl + 1) ++
      "\n" ++ indentPad lvl ++ "\x7d"

def Json.dumpsIndList : List Json → Nat → String
  | [], _ => ""
  | x :: xs, lvl =>
      ",\n" ++ indentPad lvl ++ Json.dumpsInd x lvl ++ Json.dumpsIndList xs lvl

def Json.dumpsIndObj : List (String × Json) → Nat → String
  | [], _ => ""
  | (k, v) :: kvs, lvl =>
      ",\n" ++ indentPad lvl ++ jsonEscape k ++ ": " ++ Json.dumpsInd v lvl ++
      Json.dumpsIndObj kvs lvl

end

/-- `json.dumps(body, indent=2)` where `body` is the decoded response body;
`none` models Python `None` (a body that failed to decode), which
`json.dumps` prints as `null`. -/
def pyDumpsIndent2 : Option Json → String
  | none => "null"
  | some j => Json.dumpsInd j 0

mutual

/-- Python `str(value)` as used by `'%s' % value` when building URL paths.
Scalars are rendered exactly as Python does (`None`, `True`, `False`,
decimal integers, the bare string). Containers fall back to Python `repr`
rendering, modelled exactly for container shapes whose strings need no
escaping (the client never puts containers in a path). -/
def pyStr : Json → String
  | .null => "None"
  | .bool true => "True"
  | .bool false => "False"
  | .num n => toString n
  | .str s => s
  | .arr xs => "[" ++ pyReprList xs ++ "]"
  | .obj kvs => "\x7b" ++ pyReprObj kvs ++ "\x7d"

def pyRepr : Json → String
  | .null => "None"
  | .bool true => "True"
  | .bool false => "False"
  | .num n => toString n
  | .str s => String.singleton (Char.ofNat 39) ++ s ++ String.singleton (Char.ofNat 39)
  | .arr xs => "[" ++ pyReprList xs ++ "]"
  | .obj kvs => "\x7b" ++ pyReprObj kvs ++ "\x7d"

def pyReprList : List Json → String
  | [] => ""
  | [x] => pyRepr x
  | x :: y :: rest => pyRepr x ++ ", " ++ pyReprList (y :: rest)

def pyReprObj : List (String × Json) → String
  | [] => ""
  | [(k, v)] => pyRepr (.str k) ++ ": " ++ pyRepr v
  | (k, v) :: p :: rest =>
      pyRepr (.str k) ++ ": " ++ pyRepr v ++ ", " ++ pyReprObj (p :: rest)

end

/-- A `**kwargs` dictionary: string keys to JSON-encodable values, in
insertion order (Python dicts preserve insertion order; keys are unique). -/
abbrev Kw : Type := List (String × Json)

/-- `key in args` on a Python dict. -/
def Kw.hasKey (args : Kw) (key : String) : Bool :=
  args.any (fun p => p.1 = key)

/-- `args.get(key)` / `args[key]` lookup (first binding wins). -/
def Kw.get (args : Kw) (key : String) : Option Json :=
  (args.find? (fun p => p.1 = key)).map (fun p => p.2)

/-- `args.setdefault(key, v)`: if `key` is absent it is inserted at the end
(insertion order), otherwise the dict is unchanged. -/
def Kw.setdefault (args : Kw) (key : String) (v : Json) : Kw :=
  if Kw.hasKey args key then args else args ++ [(key, v)]

/-- The Python exceptions raised by the client.

* `attributeError` — `AttributeError` (the `api_token_required` gate, and
  `Points.get` without a `metric_id`);
* `keyError` — `KeyError` (missing `endpoint` at construction,
  `check_required_args`, and `kwargs['id']` lookups);
* `httpError` — `requests.exceptions.HTTPError` from `raise_for_status`,
  carrying the response status code;
* `unimplemented` — `cachetclient.exceptions.UnimplementedException`, raised
  by the `Cachet` base-class default methods. -/
inductive CachetError : Type where
  | attributeError : String → CachetError
  | keyError : String → CachetError
  | httpError : Nat → CachetError
  | unimplemented : CachetError
deriving Repr, DecidableEq

/-- An HTTP response from the `requests` session: a status code and the
decoded JSON body (`none` when `resp.json()` raises `ValueError`, e.g. an
empty body). -/
structure Response : Type where
  status : Nat
  body : Option Json

/-- `requests.Response.ok`: true exactly when `raise_for_status()` would not
raise, i.e. the status is neither a 4xx client error nor a 5xx server
error. -/
def Response.ok (r : Response) : Bool :=
  decide (r.status < 400) || decide (600 ≤ r.status)

/-- The keyword arguments of `self.http.request(method, url, **kwargs)` as
assembled by `CachetClient._request`: HTTP method, full URL, the headers
dict in insertion order, the JSON-encoded body (`none` when no `data` was
supplied), and the timeout / TLS-verification settings (`none` when the
client has none configured). -/
structure Request : Type where
  method : String
  url : String
  headers : List (String × String)
  data : Option String
  timeout : Option Int
  verify : Option Bool

/-- The HTTP transport: what the remote service answers to each request.
Modelling it as a total function keeps every operation executable; the
requests actually issued are recorded in each operation's `OpResult`. -/
abbrev Http : Type := Request → Response

/-- The state of a `CachetClient` (equally of any resource instance, since
every resource class just inherits these fields): the fields set by
`CachetClient.__init__`. The `requests.Session` object is not part of the
state; it is modelled by the `Http` oracle passed to each operation. -/
structure CachetClient : Type where
  user_agent : String
  endpoint : String
  api_token : Option String
  timeout : Option Int
  verify : Option Bool
deriving Repr, DecidableEq

/-- The keyword arguments accepted by `CachetClient.__init__`: `endpoint`
(required), `api_token`, `timeout` and `verify` (optional, default
`None`). -/
structure InitKwargs : Type where
  endpoint : Option String
  api_token : Option String
  timeout : Option Int
  verify : Option Bool

/-- `CachetClient.__init__`: reads `kwargs['endpoint']`, raising
`KeyError('Cachet API endpoint is required')` when absent, then stores the
optional `api_token`, `timeout` and `verify` (defaulting to `None`).
Construction takes no HTTP oracle: it cannot perform network activity. -/
def CachetClient.init (kwargs : InitKwargs) : Except CachetError CachetClient :=
  match kwargs.endpoint with
  | none => .error (.keyError "Cachet API endpoint is required")
  | some ep =>
      .ok ⟨"python-cachetclient", ep, kwargs.api_token, kwargs.timeout, kwargs.verify⟩

/-- The outcome of one resource-method call: the client state after the call
(the source never assigns to `self`, so state threading makes "no mutation"
checkable), the HTTP requests issued during the call, and the returned value
or raised exception. -/
structure OpResult (α : Type) : Type where
  self : CachetClient
  requests : List Request
  result : Except CachetError α

/-- The request-assembly part of `CachetClient._request` (lines setting
timeout, verify, the headers dict, the auth header and JSON-encoding
`data`): headers always carry `User-Agent`, `Accept` and `Content-Type`, and
`X-Cachet-Token` exactly when an `api_token` is configured (`is not None`);
`data`, when present, is JSON-encoded with `json.dumps`. -/
def CachetClient.buildRequest (c : CachetClient) (url method : String)
    (data : Option Kw) : Request :=
  ⟨method, url,
   [("User-Agent", c.user_agent), ("Accept", "application/json"),
    ("Content-Type", "application/json")] ++
     (match c.api_token with
      | some t => [("X-Cachet-Token", t)]
      | none => []),
   data.map (fun kw => Json.dumps (.obj kw)),
   c.timeout, c.verify⟩

/-- `CachetClient._request`: assemble the request, issue it through the
session, raise `HTTPError` via `raise_for_status()` when the response is not
`ok`, and otherwise decode the body (`resp.json()`, with a failed decode
giving `None`). Returns `self` (never reassigned), the request issued, and
`(resp, body)` or the raised error. -/
def CachetClient._request (c : CachetClient) (http : Http) (url method : String)
    (data : Option Kw) :
    CachetClient × Request × Except CachetError (Response × Option Json) :=
  let req := c.buildRequest url method data
  let resp := http req
  (c, req,
   if resp.ok then .ok (resp, resp.body) else .error (.httpError resp.status))

/-- `CachetClient._delete`: prefix the endpoint, issue a DELETE, discard the
response entirely and return `True`. -/
def CachetClient._delete (c : CachetClient) (http : Http) (path : String) :
    OpResult Bool :=
  match c._request http (c.endpoint ++ "/" ++ path) "DELETE" none with
  | (c2, req, .ok _) => ⟨c2, [req], .ok true⟩
  | (c2, req, .error e) => ⟨c2, [req], .error e⟩

/-- `CachetClient._get`: prefix the endpoint, issue a GET and return the
decoded body re-encoded with `json.dumps(data, indent=2)`. -/
def CachetClient._get (c : CachetClient) (http : Http) (path : String)
    (data : Option Kw) : OpResult String :=
  match c._request http (c.endpoint ++ "/" ++ path) "GET" data with
  | (c2, req, .ok (_, body)) => ⟨c2, [req], .ok (pyDumpsIndent2 body)⟩
  | (c2, req, .error e) => ⟨c2, [req], .error e⟩

/-- `CachetClient._post`: prefix the endpoint, issue a POST and return the
decoded body re-encoded with `json.dumps(data, indent=2)`. -/
def CachetClient._post (c : CachetClient) (http : Http) (path : String)
    (data : Option Kw) : OpResult String :=
  match c._request http (c.endpoint ++ "/" ++ path) "POST" data with
  | (c2, req, .ok (_, body)) => ⟨c2, [req], .ok (pyDumpsIndent2 body)⟩
  | (c2, req, .error e) => ⟨c2, [req], .error e⟩

/-- `CachetClient._put`: prefix the endpoint, issue a PUT and return the
decoded body re-encoded with `json.dumps(data, indent=2)`. -/
def CachetClient._put (c : CachetClient) (http : Http) (path : String)
    (data : Option Kw) : OpResult String :=
  match c._request http (c.endpoint ++ "/" ++ path) "PUT" data with
  | (c2, req, .ok (_, body)) => ⟨c2, [req], .ok (pyDumpsIndent2 body)⟩
  | (c2, req, .error e) => ⟨c2, [req], .error e⟩

/-- The `@api_token_required` decorator: before running the wrapped method
`f`, check `self.api_token is None` and raise
`AttributeError('Parameter api_token is required.')` if so — without running
`f`, hence without any network call. -/
def api_token_required {α : Type} (c : CachetClient) (f : Unit → OpResult α) :
    OpResult α :=
  match c.api_token with
  | none => ⟨c, [], .error (.attributeError "Parameter api_token is required.")⟩
  | some _ => f ()

/-- `check_required_args(required_args, args)`: walk the required list in
declaration order and raise `KeyError('Required argument: <arg>')` at the
first key absent from `args`; return `True` when all are present. -/
def check_required_args (required_args : List String) (args : Kw) :
    Except CachetError Bool :=
  match required_args with
  | [] => .ok true
  | arg :: rest =>
      if Kw.hasKey args arg then check_required_args rest args
      else .error (.keyError ("Required argument: " ++ arg))

/-- Exception propagation of a `check_required_args(R, args)` statement: when
the check raises, the raised `KeyError` aborts the method with no request
issued; when it returns `True`, the method continues with `body`. -/
def checkThen {α : Type} (c : CachetClient) (required_args : List String)
    (args : Kw) (body : Unit → OpResult α) : OpResult α :=
  match check_required_args required_args args with
  | .error e => ⟨c, [], .error e⟩
  | .ok _ => body ()

/-- A `kwargs[key]` subscript: raises `KeyError` when the key is absent,
otherwise continues with the value (the client only subscripts keys it has
just checked, so the error branch is unreachable in practice). -/
def getItemThen {α : Type} (c : CachetClient) (args : Kw) (key : String)
    (body : Json → OpResult α) : OpResult α :=
  match Kw.get args key with
  | none => ⟨c, [], .error (.keyError key)⟩
  | some v => body v

/-- `Cachet.delete` base-class default: raise `UnimplementedException`. -/
def Cachet.delete (c : CachetClient) (_kwargs : Kw) : OpResult Bool :=
  ⟨c, [], .error .unimplemented⟩

/-- `Cachet.get` base-class default: raise `UnimplementedException`. -/
def Cachet.get (c : CachetClient) (_kwargs : Kw) : OpResult String :=
  ⟨c, [], .error .unimplemented⟩

/-- `Cachet.post` base-class default: raise `UnimplementedException`. -/
def Cachet.post (c : CachetClient) (_kwargs : Kw) : OpResult String :=
  ⟨c, [], .error .unimplemented⟩

/-- `Cachet.put` base-class default: raise `UnimplementedException`. -/
def Cachet.put (c : CachetClient) (_kwargs : Kw) : OpResult String :=
  ⟨c, [], .error .unimplemented⟩

/-- `Ping.get`: `self._get('ping')`. -/
def Ping.get (c : CachetClient) (http : Http) (_kwargs : Kw) : OpResult String :=
  c._get http "ping" none

/-- `Ping.delete`, inherited from `Cachet`. -/
def Ping.delete (c : CachetClient) (kwargs : Kw) : OpResult Bool :=
  Cachet.delete c kwargs

/-- `Ping.post`, inherited from `Cachet`. -/
def Ping.post (c : CachetClient) (kwargs : Kw) : OpResult String :=
  Cachet.post c kwargs

/-- `Ping.put`, inherited from `Cachet`. -/
def Ping.put (c : CachetClient) (kwargs : Kw) : OpResult String :=
  Cachet.put c kwargs

/-- `Version.get`: `self._get('version')`. -/
def Version.get (c : CachetClient) (http : Http) (_kwargs : Kw) : OpResult String :=
  c._get http "version" none

/-- `Version.delete`, inherited from `Cachet`. -/
def Version.delete (c : CachetClient) (kwargs : Kw) : OpResult Bool :=
  Cachet.delete c kwargs

/-- `Version.post`, inherited from `Cachet`. -/
def Version.post (c : CachetClient) (kwargs : Kw) : OpResult String :=
  Cachet.post c kwargs

/-- `Version.put`, inherited from `Cachet`. -/
def Version.put (c : CachetClient) (kwargs : Kw) : OpResult String :=
  Cachet.put c kwargs

/-- Body of `Components.delete`: `self._delete('components/%s' % id)`. -/
def Components.delete_body (c : CachetClient) (http : Http) (id : Json) :
    OpResult Bool :=
  c._delete http ("components/" ++ pyStr id)

/-- `Components.delete`, under the `@api_token_required` gate. -/
def Components.delete (c : CachetClient) (http : Http) (id : Json) :
    OpResult Bool :=
  api_token_required c (fun _ => Components.delete_body c http id)

/-- `Components.get`: with an id, `self._get('components/%s' % id)` (note:
no `data` is forwarded in this branch); without an id,
`self._get('components', data=kwargs)`. -/
def Components.get (c : CachetClient) (http : Http) (id : Option Json)
    (kwargs : Kw) : OpResult String :=
  match id with
  | some i => c._get http ("components/" ++ pyStr i) none
  | none => c._get http "components" (some kwargs)

/-- Body of `Components.post`: apply the `enabled=True` default via
`kwargs.setdefault('enabled', kwargs.get('enabled', True))`, then check the
required arguments `['name', 'status', 'enabled']`, then
`self._post('components', data=kwargs)`. -/
def Components.post_body (c : CachetClient) (http : Http) (kwargs : Kw) :
    OpResult String :=
  let kwargs := Kw.setdefault kwargs "enabled" ((Kw.get kwargs "enabled").getD (.bool true))
  checkThen c ["name", "status", "enabled"] kwargs
    (fun _ => c._post http "components" (some kwargs))

/-- `Components.post`, under the `@api_token_required` gate. -/
def Components.post (c : CachetClient) (http : Http) (kwargs : Kw) :
    OpResult String :=
  api_token_required c (fun _ => Components.post_body c http kwargs)

/-- Body of `Components.put`: check `['id']`, then
`self._put('components/%s' % kwargs['id'], data=kwargs)`. -/
def Components.put_body (c : CachetClient) (http : Http) (kwargs : Kw) :
    OpResult String :=
  checkThen c ["id"] kwargs (fun _ =>
    getItemThen c kwargs "id" (fun i =>
      c._put http ("components/" ++ pyStr i) (some kwargs)))

/-- `Components.put`, under the `@api_token_required` gate. -/
def Components.put (c : CachetClient) (http : Http) (kwargs : Kw) :
    OpResult String :=
  api_token_required c (fun _ => Components.put_body c http kwargs)

/-- Body of `Groups.delete`: `self._delete('components/groups/%s' % id)`. -/
def Groups.delete_body (c : CachetClient) (http : Http) (id : Json) :
    OpResult Bool :=
  c._delete http ("components/groups/" ++ pyStr id)

/-- `Groups.delete`, under the `@api_token_required` gate. -/
def Groups.delete (c : CachetClient) (http : Http) (id : Json) :
    OpResult Bool :=
  api_token_required c (fun _ => Groups.delete_body c http id)

/-- `Groups.get`: with an id,
`self._get('components/groups/%s' % id, data=kwargs)`; without,
`self._get('components/groups', data=kwargs)`. -/
def Groups.get (c : CachetClient) (http : Http) (id : Option Json)
    (kwargs : Kw) : OpResult String :=
  match id with
  | some i => c._get http ("components/groups/" ++ pyStr i) (some kwargs)
  | none => c._get http "components/groups" (some kwargs)

/-- Body of `Groups.post`: check `['name']`, then
`self._post('components/groups', data=kwargs)`. -/
def Groups.post_body (c : CachetClient) (http : Http) (kwargs : Kw) :
    OpResult String :=
  checkThen c ["name"] kwargs
    (fun _ => c._post http "components/groups" (some kwargs))

/-- `Groups.post`, under the `@api_token_required` gate. -/
def Groups.post (c : CachetClient) (http : Http) (kwargs : Kw) :
    OpResult String :=
  api_token_required c (fun _ => Groups.post_body c http kwargs)

/-- Body of `Groups.put`: check `['id']`, then
`self._put('components/groups/%s' % kwargs['id'], data=kwargs)`. -/
def Groups.put_body (c : CachetClient) (http : Http) (kwargs : Kw) :
    OpResult String :=
  checkThen c ["id"] kwargs (fun _ =>
    getItemThen c kwargs "id" (fun i =>
      c._put http ("components/groups/" ++ pyStr i) (some kwargs)))

/-- `Groups.put`, under the `@api_token_required` gate. -/
def Groups.put (c : CachetClient) (http : Http) (kwargs : Kw) :
    OpResult String :=
  api_token_required c (fun _ => Groups.put_body c http kwargs)

/-- Body of `Incidents.delete`: `self._delete('incidents/%s' % id)`. -/
def Incidents.delete_body (c : CachetClient) (http : Http) (id : Json) :
    OpResult Bool :=
  c._delete http ("incidents/" ++ pyStr id)

/-- `Incidents.delete`, under the `@api_token_required` gate. -/
def Incidents.delete (c : CachetClient) (http : Http) (id : Json) :
    OpResult Bool :=
  api_token_required c (fun _ => Incidents.delete_body c http id)

/-- `Incidents.get`: with an id,
`self._get('incidents/%s' % id, data=kwargs)`; without,
`self._get('incidents', data=kwargs)`. -/
def Incidents.get (c : CachetClient) (http : Http) (id : Option Json)
    (kwargs : Kw) : OpResult String :=
  match id with
  | some i => c._get http ("incidents/" ++ pyStr i) (some kwargs)
  | none => c._get http "incidents" (some kwargs)

/-- Body of `Incidents.post`: apply the `visible=True` and `notify=False`
defaults, check `['name', 'message', 'status', 'visible', 'notify']`, then
`self._post('incidents', data=kwargs)`. -/
def Incidents.post_body (c : CachetClient) (http : Http) (kwargs : Kw) :
    OpResult String :=
  let kwargs := Kw.setdefault kwargs "visible" ((Kw.get kwargs "visible").getD (.bool true))
  let kwargs := Kw.setdefault kwargs "notify" ((Kw.get kwargs "notify").getD (.bool false))
  checkThen c ["name", "message", "status", "visible", "notify"] kwargs
    (fun _ => c._post http "incidents" (some kwargs))

/-- `Incidents.post`, under the `@api_token_required` gate. -/
def Incidents.post (c : CachetClient) (http : Http) (kwargs : Kw) :
    OpResult String :=
  api_token_required c (fun _ => Incidents.post_body c http kwargs)

/-- Body of `Incidents.put`: check `['id']`, then
`self._put('incidents/%s' % kwargs['id'], data=kwargs)`. -/
def Incidents.put_body (c : CachetClient) (http : Http) (kwargs : Kw) :
    OpResult String :=
  checkThen c ["id"] kwargs (fun _ =>
    getItemThen c kwargs "id" (fun i =>
      c._put http ("incidents/" ++ pyStr i) (some kwargs)))

/-- `Incidents.put`, under the `@api_token_required` gate. -/
def Incidents.put (c : CachetClient) (http : Http) (kwargs : Kw) :
    OpResult String :=
  api_token_required c (fun _ => Incidents.put_body c http kwargs)

/-- Body of `Metrics.delete`: `self._delete('metrics/%s' % id)`. -/
def Metrics.delete_body (c : CachetClient) (http : Http) (id : Json) :
    OpResult Bool :=
  c._delete http ("metrics/" ++ pyStr id)

/-- `Metrics.delete`, under the `@api_token_required` gate. -/
def Metrics.delete (c : CachetClient) (http : Http) (id : Json) :
    OpResult Bool :=
  api_token_required c (fun _ => Metrics.delete_body c http id)

/-- `Metrics.get`: with an id, `self._get('metrics/%s' % id, data=kwargs)`;
without, `self._get('metrics', data=kwargs)`. -/
def Metrics.get (c : CachetClient) (http : Http) (id : Option Json)
    (kwargs : Kw) : OpResult String :=
  match id with
  | some i => c._get http ("metrics/" ++ pyStr i) (some kwargs)
  | none => c._get http "metrics" (some kwargs)

/-- Body of `Metrics.post`: apply the `default_value=0` default, check
`['name', 'suffix', 'description', 'default_value']`, then
`self._post('metrics', data=kwargs)`. -/
def Metrics.post_body (c : CachetClient) (http : Http) (kwargs : Kw) :
    OpResult String :=
  let kwargs := Kw.setdefault kwargs "default_value"
    ((Kw.get kwargs "default_value").getD (.num 0))
  checkThen c ["name", "suffix", "description", "default_value"] kwargs
    (fun _ => c._post http "metrics" (some kwargs))

/-- `Metrics.post`, under the `@api_token_required` gate. -/
def Metrics.post (c : CachetClient) (http : Http) (kwargs : Kw) :
    OpResult String :=
  api_token_required c (fun _ => Metrics.post_body c http kwargs)

/-- `Metrics.put`, inherited from `Cachet` (Metrics defines no `put`). -/
def Metrics.put (c : CachetClient) (kwargs : Kw) : OpResult String :=
  Cachet.put c kwargs

/-- Body of `Points.delete`:
`self._delete('metrics/%s/points/%s' % (metric_id, point_id))`. -/
def Points.delete_body (c : CachetClient) (http : Http)
    (metric_id point_id : Json) : OpResult Bool :=
  c._delete http ("metrics/" ++ pyStr metric_id ++ "/points/" ++ pyStr point_id)

/-- `Points.delete`, under the `@api_token_required` gate. -/
def Points.delete (c : CachetClient) (http : Http)
    (metric_id point_id : Json) : OpResult Bool :=
  api_token_required c (fun _ => Points.delete_body c http metric_id point_id)

/-- `Points.get`: raise
`AttributeError('metric_id is required to get metric points.')` when
`metric_id` is `None`, otherwise
`self._get('metrics/%s/points' % metric_id, data=kwargs)`. -/
def Points.get (c : CachetClient) (http : Http) (metric_id : Option Json)
    (kwargs : Kw) : OpResult String :=
  match metric_id with
  | none =>
      ⟨c, [], .error (.attributeError "metric_id is required to get metric points.")⟩
  | some m => c._get http ("metrics/" ++ pyStr m ++ "/points") (some kwargs)

/-- Body of `Points.post`: check `['id', 'value']`, then
`self._post('metrics/%s/points' % kwargs['id'], data=kwargs)`. -/
def Points.post_body (c : CachetClient) (http : Http) (kwargs : Kw) :
    OpResult String :=
  checkThen c ["id", "value"] kwargs (fun _ =>
    getItemThen c kwargs "id" (fun i =>
      c._post http ("metrics/" ++ pyStr i ++ "/points") (some kwargs)))

/-- `Points.post`, under the `@api_token_required` gate. -/
def Points.post (c : CachetClient) (http : Http) (kwargs : Kw) :
    OpResult String :=
  api_token_required c (fun _ => Points.post_body c http kwargs)

/-- `Points.put`, inherited from `Cachet` (Points defines no `put`). -/
def Points.put (c : CachetClient) (kwargs : Kw) : OpResult String :=
  Cachet.put c kwargs

/-- Body of `Subscribers.delete`: `self._delete('subscribers/%s' % id)`. -/
def Subscribers.delete_body (c : CachetClient) (http : Http) (id : Json) :
    OpResult Bool :=
  c._delete http ("subscribers/" ++ pyStr id)

/-- `Subscribers.delete`, under the `@api_token_required` gate. -/
def Subscribers.delete (c : CachetClient) (http : Http) (id : Json) :
    OpResult Bool :=
  api_token_required c (fun _ => Subscribers.delete_body c http id)

/-- `Subscribers.get`: `self._get('subscribers', data=kwargs)` (list only;
no single-item fetch). -/
def Subscribers.get (c : CachetClient) (http : Http) (kwargs : Kw) :
    OpResult String :=
  c._get http "subscribers" (some kwargs)

/-- Body of `Subscribers.post`: check `['email']`, then
`self._post('subscribers', data=kwargs)`. -/
def Subscribers.post_body (c : CachetClient) (http : Http) (kwargs : Kw) :
    OpResult String :=
  checkThen c ["email"] kwargs
    (fun _ => c._post http "subscribers" (some kwargs))

/-- `Subscribers.post`, under the `@api_token_required` gate. -/
def Subscribers.post (c : CachetClient) (http : Http) (kwargs : Kw) :
    OpResult String :=
  api_token_required c (fun _ => Subscribers.post_body c http kwargs)

/-- `Subscribers.put`, inherited from `Cachet` (Subscribers defines no
`put`). -/
def Subscribers.put (c : CachetClient) (kwargs : Kw) : OpResult String :=
  Cachet.put c kwargs

/-! ## Concrete instances used for witnesses and counterexamples -/

/-- A client constructed with an endpoint and an api_token. -/
def cW : CachetClient :=
  ⟨"python-cachetclient", "http://status.example/api/v1", some "tok", none, none⟩

/-- The same configuration but with no api_token. -/
def cNoTok : CachetClient :=
  ⟨"python-cachetclient", "http://status.example/api/v1", none, none, none⟩

/-- The same configuration but with the empty string as api_token. -/
def cEmptyTok : CachetClient :=
  ⟨"python-cachetclient", "http://status.example/api/v1", some "", none, none⟩

/-- A transport that answers every request with HTTP 200 and a JSON body. -/
def httpOk : Http :=
  fun _ => ⟨200, some (.obj [("data", .obj [("id", .num 42), ("name", .str "X")])])⟩

/-- A transport that answers HTTP 200 with a body that is not valid JSON
(`resp.json()` raises, decoded body `None`). -/
def httpEmpty : Http :=
  fun _ => ⟨200, none⟩

/-- A transport that answers HTTP 404 with an error body. -/
def httpErr : Http :=
  fun _ => ⟨404, some (.obj [("errors", .arr [.str "not found"])])⟩

/-- Keyword arguments for a components post with `enabled` left to its
default. -/
def kwC : Kw := [("name", .str "X"), ("status", .num 1)]

/-- Keyword arguments for an incidents post with `visible` and `notify`
left to their defaults. -/
def kwI : Kw := [("name", .str "I"), ("message", .str "M"), ("status", .num 1)]

/-- Keyword arguments for a metrics post with `default_value` left to its
default. -/
def kwM : Kw := [("name", .str "M"), ("suffix", .str "ms"), ("description", .str "d")]

/-! ## Behaviour predicates used to state the claims -/

/-- The contract of a `delete` call that reached the transport: exactly one
request is issued; on a success status the call returns `True` whatever the
body holds, and on a non-success status it raises `HTTPError` carrying the
status. -/
def DeleteOkSpec (o : OpResult Bool) (http : Http) : Prop :=
  ∃ r, o.requests = [r] ∧
    ((http r).ok = true → o.result = .ok true) ∧
    ((http r).ok = false → o.result = .error (.httpError (http r).status))

/-- The contract of a `get`/`post`/`put` call that reached the transport:
exactly one request is issued; on a success status the returned value is the
decoded body re-encoded by `json.dumps(..., indent=2)` (a string, not the
decoded value), and a body that failed to decode yields the string `null`
rather than an error. -/
def ReturnsPrettyJson (o : OpResult String) (http : Http) : Prop :=
  ∃ r, o.requests = [r] ∧
    ((http r).ok = true → o.result = .ok (pyDumpsIndent2 (http r).body)) ∧
    ((http r).ok = true → (http r).body = none → o.result = .ok "null")

/-! ## Helper lemmas -/

theorem CachetClient.req_self (c : CachetClient) (http : Http)
    (url method : String) (data : Option Kw) :
    (c._request http url method data).1 = c := rfl

theorem CachetClient.get_eq (c : CachetClient) (http : Http) (path : String)
    (data : Option Kw) :
    c._get http path data =
      let req := c.buildRequest (c.endpoint ++ "/" ++ path) "GET" data
      ⟨c, [req],
       if (http req).ok then .ok (pyDumpsIndent2 (http req).body)
       else .error (.httpError (http req).status)⟩ := by
  unfold CachetClient._get CachetClient._request
  by_cases h : (http (c.buildRequest (c.endpoint ++ "/" ++ path) "GET" data)).ok <;>
    simp [h]

theorem CachetClient.post_eq (c : CachetClient) (http : Http) (path : String)
    (data : Option Kw) :
    c._post http path data =
      let req := c.buildRequest (c.endpoint ++ "/" ++ path) "POST" data
      ⟨c, [req],
       if (http req).ok then .ok (pyDumpsIndent2 (http req).body)
       else .error (.httpError (http req).status)⟩ := by
  unfold CachetClient._post CachetClient._request
  by_cases h : (http (c.buildRequest (c.endpoint ++ "/" ++ path) "POST" data)).ok <;>
    simp [h]

theorem CachetClient.put_eq (c : CachetClient) (http : Http) (path : String)
    (data : Option Kw) :
    c._put http path data =
      let req := c.buildRequest (c.endpoint ++ "/" ++ path) "PUT" data
      ⟨c, [req],
       if (http req).ok then .ok (pyDumpsIndent2 (http req).body)
       else .error (.httpError (http req).status)⟩ := by
  unfold CachetClient._put CachetClient._request
  by_cases h : (http (c.buildRequest (c.endpoint ++ "/" ++ path) "PUT" data)).ok <;>
    simp [h]

theorem CachetClient.delete_eq (c : CachetClient) (http : Http) (path : String) :
    c._delete http path =
      let req := c.buildRequest (c.endpoint ++ "/" ++ path) "DELETE" none
      ⟨c, [req],
       if (http req).ok then .ok true
       else .error (.httpError (http req).status)⟩ := by
  unfold CachetClient._delete CachetClient._request
  by_cases h : (http (c.buildRequest (c.endpoint ++ "/" ++ path) "DELETE" none)).ok <;>
    simp [h]

theorem api_token_required_none {α : Type} (c : CachetClient)
    (f : Unit → OpResult α) (h : c.api_token = none) :
    api_token_required c f =
      ⟨c, [], .error (.attributeError "Parameter api_token is required.")⟩ := by
  unfold api_token_required
  rw [h]

theorem api_token_required_some {α : Type} (c : CachetClient)
    (f : Unit → OpResult α) (t : String) (h : c.api_token = some t) :
    api_token_required c f = f () := by
  unfold api_token_required
  rw [h]

/-- `check_required_args` reports exactly the first required key (in
declaration order) absent from `args`, and returns `True` when none is
absent. -/
theorem check_required_args_eq (required_args : List String) (args : Kw) :
    check_required_args required_args args =
      match required_args.find? (fun a => ! Kw.hasKey args a) with
      | some a => .error (.keyError ("Required argument: " ++ a))
      | none => .ok true := by
  induction required_args with
  | nil => rfl
  | cons a rest ih =>
      unfold check_required_args
      by_cases h : Kw.hasKey args a
      · rw [List.find?_cons_of_neg _ (by simp [h])]
        simpa [h] using ih
      · rw [List.find?_cons_of_pos _ (by simp [h])]
        simp [h]

theorem Kw.hasKey_append (kw : Kw) (p : String × Json) (a : String) :
    Kw.hasKey (kw ++ [p]) a = (Kw.hasKey kw a || decide (p.1 = a)) := by
  simp [Kw.hasKey, List.any_append]

theorem Kw.find?_eq_none (kw : Kw) (key : String) (h : Kw.hasKey kw key = false) :
    kw.find? (fun p => p.1 = key) = none := by
  induction kw with
  | nil => rfl
  | cons p rest ih =>
      simp only [Kw.hasKey, List.any_cons, Bool.or_eq_false_iff] at h
      rw [List.find?_cons_of_neg _ (by simp [h.1])]
      exact ih (by simpa [Kw.hasKey] using h.2)

theorem Kw.get_setdefault_absent (kw : Kw) (key : String) (v : Json)
    (h : Kw.hasKey kw key = false) :
    Kw.get (Kw.setdefault kw key v) key = some v := by
  unfold Kw.setdefault
  rw [h]
  simp only [Bool.false_eq_true, if_false, Kw.get, List.find?_append,
    Kw.find?_eq_none kw key h]
  simp [List.find?]

theorem checkThen_error {α : Type} (c : CachetClient) (R : List String)
    (args : Kw) (body : Unit → OpResult α) (a : String)
    (h : R.find? (fun x => ! Kw.hasKey args x) = some a) :
    checkThen c R args body =
      ⟨c, [], .error (.keyError ("Required argument: " ++ a))⟩ := by
  unfold checkThen
  rw [check_required_args_eq, h]

theorem checkThen_ok {α : Type} (c : CachetClient) (R : List String)
    (args : Kw) (body : Unit → OpResult α)
    (h : R.find? (fun x => ! Kw.hasKey args x) = none) :
    checkThen c R args body = body () := by
  unfold checkThen
  rw [check_required_args_eq, h]

theorem checkThen_self {α : Type} (c : CachetClient) (R : List String)
    (args : Kw) (body : Unit → OpResult α) (h : (body ()).self = c) :
    (checkThen c R args body).self = c := by
  unfold checkThen
  split
  · rfl
  · exact h

theorem getItemThen_some {α : Type} (c : CachetClient) (args : Kw)
    (key : String) (body : Json → OpResult α) (v : Json)
    (h : Kw.get args key = some v) :
    getItemThen c args key body = body v := by
  unfold getItemThen
  rw [h]

theorem getItemThen_self {α : Type} (c : CachetClient) (args : Kw)
    (key : String) (body : Json → OpResult α) (h : ∀ v, (body v).self = c) :
    (getItemThen c args key body).self = c := by
  unfold getItemThen
  split
  · rfl
  · exact h _

theorem CachetClient.get_self (c : CachetClient) (http : Http) (path : String)
    (data : Option Kw) : (c._get http path data).self = c := by
  rw [CachetClient.get_eq]

theorem CachetClient.post_self (c : CachetClient) (http : Http) (path : String)
    (data : Option Kw) : (c._post http path data).self = c := by
  rw [CachetClient.post_eq]

theorem CachetClient.put_self (c : CachetClient) (http : Http) (path : String)
    (data : Option Kw) : (c._put http path data).self = c := by
  rw [CachetClient.put_eq]

theorem CachetClient.delete_self (c : CachetClient) (http : Http) (path : String) :
    (c._delete http path).self = c := by
  rw [CachetClient.delete_eq]

theorem api_token_required_self {α : Type} (c : CachetClient)
    (f : Unit → OpResult α) (h : (f ()).self = c) :
    (api_token_required c f).self = c := by
  unfold api_token_required
  cases c.api_token
  · rfl
  · exact h

theorem Kw.get_eq_none (kw : Kw) (key : String) (h : Kw.hasKey kw key = false) :
    Kw.get kw key = none := by
  unfold Kw.get
  rw [Kw.find?_eq_none kw key h]
  rfl

theorem Kw.exists_get_of_hasKey (kw : Kw) (key : String)
    (h : Kw.hasKey kw key = true) : ∃ v, Kw.get kw key = some v := by
  induction kw with
  | nil => simp [Kw.hasKey] at h
  | cons p rest ih =>
      by_cases hp : p.1 = key
      · refine ⟨p.2, ?_⟩
        unfold Kw.get
        rw [List.find?_cons_of_pos _ (by simp [hp])]
        rfl
      · have hr : Kw.hasKey rest key = true := by
          simp only [Kw.hasKey, List.any_cons, Bool.or_eq_true] at h
          rcases h with h | h
          · exact absurd (of_decide_eq_true h) hp
          · exact h
        obtain ⟨v, hv⟩ := ih hr
        refine ⟨v, ?_⟩
        unfold Kw.get at hv ⊢
        rw [List.find?_cons_of_neg _ (by simp [hp])]
        exact hv

theorem Kw.get_append_of_absent (kw : Kw) (key : String) (v : Json)
    (h : Kw.hasKey kw key = false) :
    Kw.get (kw ++ [(key, v)]) key = some v := by
  simp only [Kw.get, List.find?_append, Kw.find?_eq_none kw key h]
  simp [List.find?]

theorem Kw.get_append_of_present (kw : Kw) (key : String) (p : String × Json)
    (v : Json) (h : Kw.get kw key = some v) :
    Kw.get (kw ++ [p]) key = some v := by
  simp only [Kw.get, List.find?_append] at h ⊢
  rcases hf : kw.find? (fun q => q.1 = key) with _ | q
  · simp [Kw.get, hf] at h
  · simpa [hf] using h

theorem CachetClient.delete_DeleteOkSpec (c : CachetClient) (http : Http)
    (path : String) : DeleteOkSpec (c._delete http path) http := by
  rw [CachetClient.delete_eq]
  refine ⟨_, rfl, fun h => ?_, fun h => ?_⟩ <;> simp [h]

theorem CachetClient.get_ReturnsPrettyJson (c : CachetClient) (http : Http)
    (path : String) (data : Option Kw) :
    ReturnsPrettyJson (c._get http path data) http := by
  rw [CachetClient.get_eq]
  refine ⟨_, rfl, fun h => ?_, fun h h2 => ?_⟩
  · simp [h]
  · simp [h, h2, pyDumpsIndent2]

theorem CachetClient.post_ReturnsPrettyJson (c : CachetClient) (http : Http)
    (path : String) (data : Option Kw) :
    ReturnsPrettyJson (c._post http path data) http := by
  rw [CachetClient.post_eq]
  refine ⟨_, rfl, fun h => ?_, fun h h2 => ?_⟩
  · simp [h]
  · simp [h, h2, pyDumpsIndent2]

theorem CachetClient.put_ReturnsPrettyJson (c : CachetClient) (http : Http)
    (path : String) (data : Option Kw) :
    ReturnsPrettyJson (c._put http path data) http := by
  rw [CachetClient.put_eq]
  refine ⟨_, rfl, fun h => ?_, fun h h2 => ?_⟩
  · simp [h]
  · simp [h, h2, pyDumpsIndent2]

/-! ## Claims -/

/-- **C7**: Calling `get` on the Points resource with no `metric_id` fails
with `AttributeError('metric_id is required to get metric points.')` (the
client's equivalent of a missing-argument error) before any request is
dispatched; with a `metric_id` supplied it issues exactly one request to the
path `metrics/<metric_id>/points`. -/
theorem C7_points_get_requires_metric_id (c : CachetClient) (http : Http)
    (kwargs : Kw) :
    (Points.get c http none kwargs).requests = [] ∧
    (Points.get c http none kwargs).result =
      .error (.attributeError "metric_id is required to get metric points.") ∧
    ∀ mid : Json,
      (Points.get c http (some mid) kwargs).requests.map Request.url =
        [c.endpoint ++ "/" ++ ("metrics/" ++ pyStr mid ++ "/points")] := by
  refine ⟨rfl, rfl, fun mid => ?_⟩
  show ((c._get http ("metrics/" ++ pyStr mid ++ "/points")
    (some kwargs)).requests).map Request.url = _
  rw [CachetClient.get_eq]
  rfl

/-- **C8**: Constructing a client — equally any resource instance, since all
resource classes delegate to `CachetClient.__init__` — from a configuration
lacking the `endpoint` key fails with the configuration `KeyError`;
construction with an endpoint succeeds, with `api_token`, `timeout` and
`verify` optional (any combination of present/absent). `CachetClient.init`
takes no transport oracle, so construction can perform no network
activity. -/
theorem C8_construction (kwargs : InitKwargs) :
    (kwargs.endpoint = none →
      CachetClient.init kwargs =
        .error (.keyError "Cachet API endpoint is required")) ∧
    (∀ ep : String, kwargs.endpoint = some ep →
      CachetClient.init kwargs =
        .ok ⟨"python-cachetclient", ep, kwargs.api_token, kwargs.timeout,
             kwargs.verify⟩) := by
  constructor
  · intro h
    unfold CachetClient.init
    rw [h]
  · intro ep h
    unfold CachetClient.init
    rw [h]

theorem C8_construction_witness :
    CachetClient.init ⟨none, some "tok", some 30, some true⟩ =
      .error (.keyError "Cachet API endpoint is required") ∧
    CachetClient.init ⟨some "http://status.example/api/v1", none, none, none⟩ =
      .ok ⟨"python-cachetclient", "http://status.example/api/v1", none, none,
           none⟩ :=
  ⟨(C8_construction ⟨none, some "tok", some 30, some true⟩).1 rfl,
   (C8_construction ⟨some "http://status.example/api/v1", none, none, none⟩).2
     _ rfl⟩

/-- **C5**: For every resource exposing `delete` (given a configured token,
without which the auth gate intervenes first), `delete` issues exactly one
request and returns the boolean `True` whenever the HTTP response has a
success status — regardless of the response body, over which the statement
is universally quantified via `http` — and raises `HTTPError` carrying the
status when the response status is non-success. -/
theorem C5_delete_semantics (c : CachetClient) (t : String) (http : Http)
    (id mid pid : Json) (h : c.api_token = some t) :
    DeleteOkSpec (Components.delete c http id) http ∧
    DeleteOkSpec (Groups.delete c http id) http ∧
    DeleteOkSpec (Incidents.delete c http id) http ∧
    DeleteOkSpec (Metrics.delete c http id) http ∧
    DeleteOkSpec (Points.delete c http mid pid) http ∧
    DeleteOkSpec (Subscribers.delete c http id) http := by
  have gate : ∀ (f : Unit → OpResult Bool), api_token_required c f = f () :=
    fun f => api_token_required_some c f t h
  refine ⟨?_, ?_, ?_, ?_, ?_, ?_⟩ <;>
    · simp only [Components.delete, Groups.delete, Incidents.delete,
        Metrics.delete, Points.delete, Subscribers.delete, gate,
        Components.delete_body, Groups.delete_body, Incidents.delete_body,
        Metrics.delete_body, Points.delete_body, Subscribers.delete_body]
      apply CachetClient.delete_DeleteOkSpec

theorem C5_delete_semantics_witness :
    (DeleteOkSpec (Components.delete cW httpOk (.num 1)) httpOk ∧
     DeleteOkSpec (Groups.delete cW httpOk (.num 1)) httpOk ∧
     DeleteOkSpec (Incidents.delete cW httpOk (.num 1)) httpOk ∧
     DeleteOkSpec (Metrics.delete cW httpOk (.num 1)) httpOk ∧
     DeleteOkSpec (Points.delete cW httpOk (.num 2) (.num 3)) httpOk ∧
     DeleteOkSpec (Subscribers.delete cW httpOk (.num 1)) httpOk) ∧
    (Components.delete cW httpOk (.num 1)).result = .ok true ∧
    (Components.delete cW httpErr (.num 1)).result = .error (.httpError 404) :=
  ⟨C5_delete_semantics cW "tok" httpOk (.num 1) (.num 2) (.num 3) rfl,
   rfl, rfl⟩

/-- **C6**: Every `get`, `post` and `put` transport call that receives a
success HTTP status returns the decoded response body re-encoded by
`json.dumps(..., indent=2)` — a pretty-printed JSON string with two-space
indentation, not the native decoded value (the result type is a string) —
and a response body that fails to decode as JSON (e.g. an empty body) is
treated as `None`, yielding the string `null` rather than an error. The
final conjunct exhibits the two-space indentation concretely. -/
theorem C6_pretty_json (c : CachetClient) (http : Http) (path : String)
    (data : Option Kw) :
    ReturnsPrettyJson (c._get http path data) http ∧
    ReturnsPrettyJson (c._post http path data) http ∧
    ReturnsPrettyJson (c._put http path data) http ∧
    pyDumpsIndent2 (some (.obj [("name", .str "X")])) =
      "\x7b\n  \"name\": \"X\"\n\x7d" :=
  ⟨CachetClient.get_ReturnsPrettyJson c http path data,
   CachetClient.post_ReturnsPrettyJson c http path data,
   CachetClient.put_ReturnsPrettyJson c http path data,
   by decide⟩

theorem C6_pretty_json_witness :
    (ReturnsPrettyJson (cW._get httpOk "ping" none) httpOk ∧
     ReturnsPrettyJson (cW._post httpOk "ping" none) httpOk ∧
     ReturnsPrettyJson (cW._put httpOk "ping" none) httpOk ∧
     pyDumpsIndent2 (some (.obj [("name", .str "X")])) =
       "\x7b\n  \"name\": \"X\"\n\x7d") ∧
    (cW._get httpOk "ping" none).result =
      .ok "\x7b\n  \"data\": \x7b\n    \"id\": 42,\n    \"name\": \"X\"\n  \x7d\n\x7d" ∧
    (cW._get httpEmpty "ping" none).result = .ok "null" :=
  ⟨C6_pretty_json cW httpOk "ping" none, rfl, rfl⟩

/-- **C10**: The `api_token_required` gate raises if and only if the
configured `api_token` is exactly `None`: with `api_token = None` the call
fails with the `AttributeError` and no request; with any other value
(including the empty string) the wrapped method runs unchanged. A client
whose token is the empty string therefore proceeds, and the issued request
carries the `X-Cachet-Token` header with the empty string. -/
theorem C10_gate_none_iff (α : Type) (c : CachetClient)
    (f : Unit → OpResult α) :
    (c.api_token = none →
      api_token_required c f =
        ⟨c, [], .error (.attributeError "Parameter api_token is required.")⟩) ∧
    (c.api_token ≠ none → api_token_required c f = f ()) ∧
    (∀ (http : Http) (id : Json), c.api_token = some "" →
      Components.delete c http id = Components.delete_body c http id ∧
      ∃ r, (Components.delete c http id).requests = [r] ∧
        ("X-Cachet-Token", "") ∈ r.headers) := by
  refine ⟨fun h => api_token_required_none c f h, fun hne => ?_, ?_⟩
  · obtain ⟨t, ht⟩ := Option.ne_none_iff_exists.mp hne
    exact api_token_required_some c f t ht.symm
  · intro http id h
    have e : Components.delete c http id =
        c._delete http ("components/" ++ pyStr id) :=
      api_token_required_some c _ "" h
    refine ⟨e, ?_⟩
    rw [e, CachetClient.delete_eq]
    refine ⟨_, rfl, ?_⟩
    unfold CachetClient.buildRequest
    rw [h]
    simp

theorem C10_gate_none_iff_witness :
    api_token_required cNoTok
        (fun _ => Components.delete_body cNoTok httpOk (.num 1)) =
      ⟨cNoTok, [],
       .error (.attributeError "Parameter api_token is required.")⟩ ∧
    api_token_required cW (fun _ => Components.delete_body cW httpOk (.num 1)) =
      Components.delete_body cW httpOk (.num 1) ∧
    Components.delete cEmptyTok httpOk (.num 1) =
      Components.delete_body cEmptyTok httpOk (.num 1) ∧
    ∃ r, (Components.delete cEmptyTok httpOk (.num 1)).requests = [r] ∧
      ("X-Cachet-Token", "") ∈ r.headers :=
  ⟨(C10_gate_none_iff Bool cNoTok
      (fun _ => Components.delete_body cNoTok httpOk (.num 1))).1 rfl,
   (C10_gate_none_iff Bool cW
      (fun _ => Components.delete_body cW httpOk (.num 1))).2.1
     (Option.some_ne_none _),
   ((C10_gate_none_iff Bool cEmptyTok
      (fun _ => Components.delete_body cEmptyTok httpOk (.num 1))).2.2
     httpOk (.num 1) rfl).1,
   ((C10_gate_none_iff Bool cEmptyTok
      (fun _ => Components.delete_body cEmptyTok httpOk (.num 1))).2.2
     httpOk (.num 1) rfl).2⟩

/-- **C2**: For every resource and every mutating operation it implements
(`post`, `put`, `delete` — fifteen operations across Components, Groups,
Incidents, Metrics, Points and Subscribers; operations a resource does not
implement raise `UnimplementedException` from the base class instead and
have no gate), calling with no `api_token` configured fails with the
`AttributeError` auth gate and issues no HTTP request; with a token
configured the operation proceeds past the gate, i.e. behaves exactly as
its ungated body. -/
theorem C2_token_gate (c : CachetClient) (http : Http) (id mid pid : Json)
    (kwargs : Kw) :
    (c.api_token = none →
      Components.delete c http id =
        ⟨c, [], .error (.attributeError "Parameter api_token is required.")⟩ ∧
      Components.post c http kwargs =
        ⟨c, [], .error (.attributeError "Parameter api_token is required.")⟩ ∧
      Components.put c http kwargs =
        ⟨c, [], .error (.attributeError "Parameter api_token is required.")⟩ ∧
      Groups.delete c http id =
        ⟨c, [], .error (.attributeError "Parameter api_token is required.")⟩ ∧
      Groups.post c http kwargs =
        ⟨c, [], .error (.attributeError "Parameter api_token is required.")⟩ ∧
      Groups.put c http kwargs =
        ⟨c, [], .error (.attributeError "Parameter api_token is required.")⟩ ∧
      Incidents.delete c http id =
        ⟨c, [], .error (.attributeError "Parameter api_token is required.")⟩ ∧
      Incidents.post c http kwargs =
        ⟨c, [], .error (.attributeError "Parameter api_token is required.")⟩ ∧
      Incidents.put c http kwargs =
        ⟨c, [], .error (.attributeError "Parameter api_token is required.")⟩ ∧
      Metrics.delete c http id =
        ⟨c, [], .error (.attributeError "Parameter api_token is required.")⟩ ∧
      Metrics.post c http kwargs =
        ⟨c, [], .error (.attributeError "Parameter api_token is required.")⟩ ∧
      Points.delete c http mid pid =
        ⟨c, [], .error (.attributeError "Parameter api_token is required.")⟩ ∧
      Points.post c http kwargs =
        ⟨c, [], .error (.attributeError "Parameter api_token is required.")⟩ ∧
      Subscribers.delete c http id =
        ⟨c, [], .error (.attributeError "Parameter api_token is required.")⟩ ∧
      Subscribers.post c http kwargs =
        ⟨c, [], .error (.attributeError "Parameter api_token is required.")⟩) ∧
    (c.api_token ≠ none →
      Components.delete c http id = Components.delete_body c http id ∧
      Components.post c http kwargs = Components.post_body c http kwargs ∧
      Components.put c http kwargs = Components.put_body c http kwargs ∧
      Groups.delete c http id = Groups.delete_body c http id ∧
      Groups.post c http kwargs = Groups.post_body c http kwargs ∧
      Groups.put c http kwargs = Groups.put_body c http kwargs ∧
      Incidents.delete c http id = Incidents.delete_body c http id ∧
      Incidents.post c http kwargs = Incidents.post_body c http kwargs ∧
      Incidents.put c http kwargs = Incidents.put_body c http kwargs ∧
      Metrics.delete c http id = Metrics.delete_body c http id ∧
      Metrics.post c http kwargs = Metrics.post_body c http kwargs ∧
      Points.delete c http mid pid = Points.delete_body c http mid pid ∧
      Points.post c http kwargs = Points.post_body c http kwargs ∧
      Subscribers.delete c http id = Subscribers.delete_body c http id ∧
      Subscribers.post c http kwargs = Subscribers.post_body c http kwargs) := by
  constructor
  · intro h
    refine ⟨?_, ?_, ?_, ?_, ?_, ?_, ?_, ?_, ?_, ?_, ?_, ?_, ?_, ?_, ?_⟩ <;>
      exact api_token_required_none c _ h
  · intro hne
    obtain ⟨t, ht⟩ := Option.ne_none_iff_exists.mp hne
    refine ⟨?_, ?_, ?_, ?_, ?_, ?_, ?_, ?_, ?_, ?_, ?_, ?_, ?_, ?_, ?_⟩ <;>
      exact api_token_required_some c _ t ht.symm

theorem C2_token_gate_witness :
    Components.delete cNoTok httpOk (.num 1) =
      ⟨cNoTok, [],
       .error (.attributeError "Parameter api_token is required.")⟩ ∧
    Subscribers.post cNoTok httpOk [("email", .str "a@b.c")] =
      ⟨cNoTok, [],
       .error (.attributeError "Parameter api_token is required.")⟩ ∧
    Components.post cW httpOk [("name", .str "X"), ("status", .num 1)] =
      Components.post_body cW httpOk [("name", .str "X"), ("status", .num 1)] := by
  have h1 := (C2_token_gate cNoTok httpOk (.num 1) (.num 2) (.num 3)
    [("email", .str "a@b.c")]).1 rfl
  have h2 := (C2_token_gate cW httpOk (.num 1) (.num 2) (.num 3)
    [("name", .str "X"), ("status", .num 1)]).2 (Option.some_ne_none _)
  exact ⟨h1.1, h1.2.2.2.2.2.2.2.2.2.2.2.2.2.2, h2.2.1⟩

/-- **C9**: Every operation (`get`, `post`, `put`, `delete`, including the
inherited unimplemented defaults) on every resource leaves the client
state — the configuration fields `endpoint`, `api_token`, `timeout`,
`verify` set at construction — unchanged: the client returned in each
`OpResult` is the client the call started from, for all arguments and all
transport behaviours, whether the call succeeds or fails. -/
theorem C9_no_mutation (c : CachetClient) (http : Http) (id mid pid : Json)
    (oid : Option Json) (kwargs : Kw) :
    (Ping.get c http kwargs).self = c ∧
    (Ping.delete c kwargs).self = c ∧
    (Ping.post c kwargs).self = c ∧
    (Ping.put c kwargs).self = c ∧
    (Version.get c http kwargs).self = c ∧
    (Version.delete c kwargs).self = c ∧
    (Version.post c kwargs).self = c ∧
    (Version.put c kwargs).self = c ∧
    (Components.delete c http id).self = c ∧
    (Components.get c http oid kwargs).self = c ∧
    (Components.post c http kwargs).self = c ∧
    (Components.put c http kwargs).self = c ∧
    (Groups.delete c http id).self = c ∧
    (Groups.get c http oid kwargs).self = c ∧
    (Groups.post c http kwargs).self = c ∧
    (Groups.put c http kwargs).self = c ∧
    (Incidents.delete c http id).self = c ∧
    (Incidents.get c http oid kwargs).self = c ∧
    (Incidents.post c http kwargs).self = c ∧
    (Incidents.put c http kwargs).self = c ∧
    (Metrics.delete c http id).self = c ∧
    (Metrics.get c http oid kwargs).self = c ∧
    (Metrics.post c http kwargs).self = c ∧
    (Metrics.put c kwargs).self = c ∧
    (Points.delete c http mid pid).self = c ∧
    (Points.get c http oid kwargs).self = c ∧
    (Points.post c http kwargs).self = c ∧
    (Points.put c kwargs).self = c ∧
    (Subscribers.delete c http id).self = c ∧
    (Subscribers.get c http kwargs).self = c ∧
    (Subscribers.post c http kwargs).self = c ∧
    (Subscribers.put c kwargs).self = c := by
  refine ⟨?_, rfl, rfl, rfl, ?_, rfl, rfl, rfl, ?_, ?_, ?_, ?_, ?_, ?_, ?_,
    ?_, ?_, ?_, ?_, ?_, ?_, ?_, ?_, rfl, ?_, ?_, ?_, rfl, ?_, ?_, ?_, rfl⟩
  · exact CachetClient.get_self c http "ping" none
  · exact CachetClient.get_self c http "version" none
  · exact api_token_required_self c _ (CachetClient.delete_self c http _)
  · cases oid <;> exact CachetClient.get_self c http _ _
  · exact api_token_required_self c _
      (checkThen_self c _ _ _ (CachetClient.post_self c http _ _))
  · exact api_token_required_self c _ (checkThen_self c _ _ _
      (getItemThen_self c _ _ _ (fun v => CachetClient.put_self c http _ _)))
  · exact api_token_required_self c _ (CachetClient.delete_self c http _)
  · cases oid <;> exact CachetClient.get_self c http _ _
  · exact api_token_required_self c _
      (checkThen_self c _ _ _ (CachetClient.post_self c http _ _))
  · exact api_token_required_self c _ (checkThen_self c _ _ _
      (getItemThen_self c _ _ _ (fun v => CachetClient.put_self c http _ _)))
  · exact api_token_required_self c _ (CachetClient.delete_self c http _)
  · cases oid <;> exact CachetClient.get_self c http _ _
  · exact api_token_required_self c _
      (checkThen_self c _ _ _ (CachetClient.post_self c http _ _))
  · exact api_token_required_self c _ (checkThen_self c _ _ _
      (getItemThen_self c _ _ _ (fun v => CachetClient.put_self c http _ _)))
  · exact api_token_required_self c _ (CachetClient.delete_self c http _)
  · cases oid <;> exact CachetClient.get_self c http _ _
  · exact api_token_required_self c _
      (checkThen_self c _ _ _ (CachetClient.post_self c http _ _))
  · exact api_token_required_self c _ (CachetClient.delete_self c http _)
  · cases oid
    · rfl
    · exact CachetClient.get_self c http _ _
  · exact api_token_required_self c _ (checkThen_self c _ _ _
      (getItemThen_self c _ _ _ (fun v => CachetClient.post_self c http _ _)))
  · exact api_token_required_self c _ (CachetClient.delete_self c http _)
  · exact CachetClient.get_self c http _ _
  · exact api_token_required_self c _
      (checkThen_self c _ _ _ (CachetClient.post_self c http _ _))

theorem Kw.hasKey_append_list (kw tail : Kw) (a : String) :
    Kw.hasKey (kw ++ tail) a = (Kw.hasKey kw a || Kw.hasKey tail a) := by
  simp [Kw.hasKey, List.any_append]

/-- **C3**: Default values are applied to the argument map before the
required-argument check runs, so a defaulted field always satisfies its
requirement: given the compulsory non-defaulted fields, `Components.post`
without an explicit `enabled` dispatches its (single) request with a body
containing `enabled=true`, `Incidents.post` without explicit
`visible`/`notify` dispatches a body containing `visible=true` and
`notify=false`, and `Metrics.post` without an explicit `default_value`
dispatches a body containing `default_value=0`. -/
theorem C3_defaults_before_check (c : CachetClient) (t : String) (http : Http)
    (kwargs : Kw) (ht : c.api_token = some t) :
    (Kw.hasKey kwargs "name" = true → Kw.hasKey kwargs "status" = true →
     Kw.hasKey kwargs "enabled" = false →
      ∃ r, (Components.post c http kwargs).requests = [r] ∧
        r.data = some (Json.dumps (.obj (kwargs ++ [("enabled", .bool true)]))) ∧
        Kw.get (kwargs ++ [("enabled", .bool true)]) "enabled" =
          some (.bool true)) ∧
    (Kw.hasKey kwargs "name" = true → Kw.hasKey kwargs "message" = true →
     Kw.hasKey kwargs "status" = true → Kw.hasKey kwargs "visible" = false →
     Kw.hasKey kwargs "notify" = false →
      ∃ r, (Incidents.post c http kwargs).requests = [r] ∧
        r.data = some (Json.dumps (.obj
          (kwargs ++ [("visible", .bool true), ("notify", .bool false)]))) ∧
        Kw.get (kwargs ++ [("visible", .bool true), ("notify", .bool false)])
          "visible" = some (.bool true) ∧
        Kw.get (kwargs ++ [("visible", .bool true), ("notify", .bool false)])
          "notify" = some (.bool false)) ∧
    (Kw.hasKey kwargs "name" = true → Kw.hasKey kwargs "suffix" = true →
     Kw.hasKey kwargs "description" = true →
     Kw.hasKey kwargs "default_value" = false →
      ∃ r, (Metrics.post c http kwargs).requests = [r] ∧
        r.data = some (Json.dumps (.obj (kwargs ++ [("default_value", .num 0)]))) ∧
        Kw.get (kwargs ++ [("default_value", .num 0)]) "default_value" =
          some (.num 0)) := by
  refine ⟨?_, ?_, ?_⟩
  · intro hn hs he
    have gate : Components.post c http kwargs = Components.post_body c http kwargs :=
      api_token_required_some c _ t ht
    have hget : Kw.get kwargs "enabled" = none := Kw.get_eq_none _ _ he
    have hsd : Kw.setdefault kwargs "enabled"
        ((Kw.get kwargs "enabled").getD (.bool true)) =
        kwargs ++ [("enabled", .bool true)] := by
      simp [Kw.setdefault, he, hget]
    have e1 : Components.post c http kwargs =
        checkThen c ["name", "status", "enabled"]
          (kwargs ++ [("enabled", .bool true)])
          (fun _ => c._post http "components"
            (some (kwargs ++ [("enabled", .bool true)]))) := by
      rw [gate]
      show Components.post_body c http kwargs = _
      simp only [Components.post_body]
      rw [hsd]
    have ha : Kw.hasKey (kwargs ++ [("enabled", Json.bool true)]) "name" = true := by
      rw [Kw.hasKey_append_list, hn]
      decide
    have hb : Kw.hasKey (kwargs ++ [("enabled", Json.bool true)]) "status" = true := by
      rw [Kw.hasKey_append_list, hs]
      decide
    have hc : Kw.hasKey (kwargs ++ [("enabled", Json.bool true)]) "enabled" = true := by
      rw [Kw.hasKey_append_list, he]
      decide
    have hok : (["name", "status", "enabled"].find?
        (fun x => ! Kw.hasKey (kwargs ++ [("enabled", Json.bool true)]) x)) = none := by
      rw [List.find?_cons_of_neg _ (by simp [ha]),
        List.find?_cons_of_neg _ (by simp [hb]),
        List.find?_cons_of_neg _ (by simp [hc])]
      rfl
    rw [e1, checkThen_ok c _ _ _ hok, CachetClient.post_eq]
    exact ⟨_, rfl, rfl, Kw.get_append_of_absent kwargs "enabled" (.bool true) he⟩
  · intro hn hm hs hv hnotif
    have gate : Incidents.post c http kwargs = Incidents.post_body c http kwargs :=
      api_token_required_some c _ t ht
    have hgv : Kw.get kwargs "visible" = none := Kw.get_eq_none _ _ hv
    have hsd1 : Kw.setdefault kwargs "visible"
        ((Kw.get kwargs "visible").getD (.bool true)) =
        kwargs ++ [("visible", .bool true)] := by
      simp [Kw.setdefault, hv, hgv]
    have hkn2 : Kw.hasKey (kwargs ++ [("visible", Json.bool true)]) "notify" = false := by
      rw [Kw.hasKey_append_list, hnotif]
      decide
    have hgn2 : Kw.get (kwargs ++ [("visible", Json.bool true)]) "notify" = none :=
      Kw.get_eq_none _ _ hkn2
    have hsd2 : Kw.setdefault (kwargs ++ [("visible", Json.bool true)]) "notify"
        ((Kw.get (kwargs ++ [("visible", Json.bool true)]) "notify").getD (.bool false)) =
        (kwargs ++ [("visible", Json.bool true)]) ++ [("notify", Json.bool false)] := by
      simp [Kw.setdefault, hkn2, hgn2]
    have hflat : (kwargs ++ [("visible", Json.bool true)]) ++ [("notify", Json.bool false)] =
        kwargs ++ [("visible", Json.bool true), ("notify", Json.bool false)] := by
      rw [List.append_assoc]
      rfl
    have e1 : Incidents.post c http kwargs =
        checkThen c ["name", "message", "status", "visible", "notify"]
          (kwargs ++ [("visible", .bool true), ("notify", .bool false)])
          (fun _ => c._post http "incidents"
            (some (kwargs ++ [("visible", .bool true), ("notify", .bool false)]))) := by
      rw [gate]
      show Incidents.post_body c http kwargs = _
      simp only [Incidents.post_body]
      rw [hsd1, hsd2, hflat]
    have ha : Kw.hasKey (kwargs ++ [("visible", Json.bool true),
        ("notify", Json.bool false)]) "name" = true := by
      rw [Kw.hasKey_append_list, hn]
      decide
    have hb : Kw.hasKey (kwargs ++ [("visible", Json.bool true),
        ("notify", Json.bool false)]) "message" = true := by
      rw [Kw.hasKey_append_list, hm]
      decide
    have hc : Kw.hasKey (kwargs ++ [("visible", Json.bool true),
        ("notify", Json.bool false)]) "status" = true := by
      rw [Kw.hasKey_append_list, hs]
      decide
    have hd : Kw.hasKey (kwargs ++ [("visible", Json.bool true),
        ("notify", Json.bool false)]) "visible" = true := by
      rw [Kw.hasKey_append_list, hv]
      decide
    have he2 : Kw.hasKey (kwargs ++ [("visible", Json.bool true),
        ("notify", Json.bool false)]) "notify" = true := by
      rw [Kw.hasKey_append_list, hnotif]
      decide
    have hok : (["name", "message", "status", "visible", "notify"].find?
        (fun x => ! Kw.hasKey (kwargs ++ [("visible", Json.bool true),
          ("notify", Json.bool false)]) x)) = none := by
      rw [List.find?_cons_of_neg _ (by simp [ha]),
        List.find?_cons_of_neg _ (by simp [hb]),
        List.find?_cons_of_neg _ (by simp [hc]),
        List.find?_cons_of_neg _ (by simp [hd]),
        List.find?_cons_of_neg _ (by simp [he2])]
      rfl
    have g1 : Kw.get (kwargs ++ [("visible", Json.bool true)]) "visible" =
        some (.bool true) :=
      Kw.get_append_of_absent kwargs "visible" (.bool true) hv
    have g2 := Kw.get_append_of_present (kwargs ++ [("visible", Json.bool true)])
      "visible" ("notify", Json.bool false) _ g1
    rw [hflat] at g2
    have g3 : Kw.get ((kwargs ++ [("visible", Json.bool true)]) ++
        [("notify", Json.bool false)]) "notify" = some (.bool false) :=
      Kw.get_append_of_absent _ "notify" (.bool false) hkn2
    rw [hflat] at g3
    rw [e1, checkThen_ok c _ _ _ hok, CachetClient.post_eq]
    exact ⟨_, rfl, rfl, g2, g3⟩
  · intro hn hs hd hdv
    have gate : Metrics.post c http kwargs = Metrics.post_body c http kwargs :=
      api_token_required_some c _ t ht
    have hget : Kw.get kwargs "default_value" = none := Kw.get_eq_none _ _ hdv
    have hsd : Kw.setdefault kwargs "default_value"
        ((Kw.get kwargs "default_value").getD (.num 0)) =
        kwargs ++ [("default_value", .num 0)] := by
      simp [Kw.setdefault, hdv, hget]
    have e1 : Metrics.post c http kwargs =
        checkThen c ["name", "suffix", "description", "default_value"]
          (kwargs ++ [("default_value", .num 0)])
          (fun _ => c._post http "metrics"
            (some (kwargs ++ [("default_value", .num 0)]))) := by
      rw [gate]
      show Metrics.post_body c http kwargs = _
      simp only [Metrics.post_body]
      rw [hsd]
    have ha : Kw.hasKey (kwargs ++ [("default_value", Json.num 0)]) "name" = true := by
      rw [Kw.hasKey_append_list, hn]
      decide
    have hb : Kw.hasKey (kwargs ++ [("default_value", Json.num 0)]) "suffix" = true := by
      rw [Kw.hasKey_append_list, hs]
      decide
    have hc : Kw.hasKey (kwargs ++ [("default_value", Json.num 0)]) "description" = true := by
      rw [Kw.hasKey_append_list, hd]
      decide
    have hd2 : Kw.hasKey (kwargs ++ [("default_value", Json.num 0)]) "default_value" = true := by
      rw [Kw.hasKey_append_list, hdv]
      decide
    have hok : (["name", "suffix", "description", "default_value"].find?
        (fun x => ! Kw.hasKey (kwargs ++ [("default_value", Json.num 0)]) x)) = none := by
      rw [List.find?_cons_of_neg _ (by simp [ha]),
        List.find?_cons_of_neg _ (by simp [hb]),
        List.find?_cons_of_neg _ (by simp [hc]),
        List.find?_cons_of_neg _ (by simp [hd2])]
      rfl
    rw [e1, checkThen_ok c _ _ _ hok, CachetClient.post_eq]
    exact ⟨_, rfl, rfl,
      Kw.get_append_of_absent kwargs "default_value" (.num 0) hdv⟩

theorem C3_defaults_before_check_witness :
    (∃ r, (Components.post cW httpOk kwC).requests = [r] ∧
      r.data = some (Json.dumps (.obj (kwC ++ [("enabled", .bool true)]))) ∧
      Kw.get (kwC ++ [("enabled", .bool true)]) "enabled" = some (.bool true)) ∧
    (∃ r, (Incidents.post cW httpOk kwI).requests = [r] ∧
      r.data = some (Json.dumps (.obj
        (kwI ++ [("visible", .bool true), ("notify", .bool false)]))) ∧
      Kw.get (kwI ++ [("visible", .bool true), ("notify", .bool false)])
        "visible" = some (.bool true) ∧
      Kw.get (kwI ++ [("visible", .bool true), ("notify", .bool false)])
        "notify" = some (.bool false)) ∧
    (∃ r, (Metrics.post cW httpOk kwM).requests = [r] ∧
      r.data = some (Json.dumps (.obj (kwM ++ [("default_value", .num 0)]))) ∧
      Kw.get (kwM ++ [("default_value", .num 0)]) "default_value" =
        some (.num 0)) :=
  ⟨(C3_defaults_before_check cW "tok" httpOk kwC rfl).1
     (by decide) (by decide) (by decide),
   (C3_defaults_before_check cW "tok" httpOk kwI rfl).2.1
     (by decide) (by decide) (by decide) (by decide) (by decide),
   (C3_defaults_before_check cW "tok" httpOk kwM rfl).2.2
     (by decide) (by decide) (by decide) (by decide)⟩

/-- **C4**: For every resource operation with a non-empty required-field set
(the nine checked operations: Components/Groups/Incidents `post` and `put`,
Metrics `post`, Points `post`, Subscribers `post`; given a configured token,
without which the auth gate intervenes first), if the argument map checked —
after defaults, for the operations that apply them — lacks any required
key, the call fails with the `KeyError` naming exactly the first absent key
in declaration order (`List.find?` over the declared list) and issues no
HTTP request; if every required key is present, the check passes and
exactly one HTTP request to the resource's path is issued. -/
theorem C4_required_args (c : CachetClient) (t : String) (http : Http)
    (kwargs : Kw) (ht : c.api_token = some t) :
    (∀ dkw : Kw, dkw = Kw.setdefault kwargs "enabled"
        ((Kw.get kwargs "enabled").getD (.bool true)) →
      (∀ a, ["name", "status", "enabled"].find?
          (fun x => ! Kw.hasKey dkw x) = some a →
        Components.post c http kwargs =
          ⟨c, [], .error (.keyError ("Required argument: " ++ a))⟩) ∧
      (["name", "status", "enabled"].find? (fun x => ! Kw.hasKey dkw x) = none →
        (Components.post c http kwargs).requests.map Request.url =
          [c.endpoint ++ "/" ++ "components"] ∧
        (Components.post c http kwargs).requests.map Request.method =
          ["POST"])) ∧
    ((∀ a, ["id"].find? (fun x => ! Kw.hasKey kwargs x) = some a →
        Components.put c http kwargs =
          ⟨c, [], .error (.keyError ("Required argument: " ++ a))⟩) ∧
      (["id"].find? (fun x => ! Kw.hasKey kwargs x) = none →
        ∃ i, Kw.get kwargs "id" = some i ∧
          (Components.put c http kwargs).requests.map Request.url =
            [c.endpoint ++ "/" ++ ("components/" ++ pyStr i)] ∧
          (Components.put c http kwargs).requests.map Request.method =
            ["PUT"])) ∧
    ((∀ a, ["name"].find? (fun x => ! Kw.hasKey kwargs x) = some a →
        Groups.post c http kwargs =
          ⟨c, [], .error (.keyError ("Required argument: " ++ a))⟩) ∧
      (["name"].find? (fun x => ! Kw.hasKey kwargs x) = none →
        (Groups.post c http kwargs).requests.map Request.url =
          [c.endpoint ++ "/" ++ "components/groups"] ∧
        (Groups.post c http kwargs).requests.map Request.method =
          ["POST"])) ∧
    ((∀ a, ["id"].find? (fun x => ! Kw.hasKey kwargs x) = some a →
        Groups.put c http kwargs =
          ⟨c, [], .error (.keyError ("Required argument: " ++ a))⟩) ∧
      (["id"].find? (fun x => ! Kw.hasKey kwargs x) = none →
        ∃ i, Kw.get kwargs "id" = some i ∧
          (Groups.put c http kwargs).requests.map Request.url =
            [c.endpoint ++ "/" ++ ("components/groups/" ++ pyStr i)] ∧
          (Groups.put c http kwargs).requests.map Request.method =
            ["PUT"])) ∧
    (∀ dkw : Kw, dkw = Kw.setdefault
        (Kw.setdefault kwargs "visible" ((Kw.get kwargs "visible").getD (.bool true)))
        "notify"
        ((Kw.get (Kw.setdefault kwargs "visible"
          ((Kw.get kwargs "visible").getD (.bool true))) "notify").getD (.bool false)) →
      (∀ a, ["name", "message", "status", "visible", "notify"].find?
          (fun x => ! Kw.hasKey dkw x) = some a →
        Incidents.post c http kwargs =
          ⟨c, [], .error (.keyError ("Required argument: " ++ a))⟩) ∧
      (["name", "message", "status", "visible", "notify"].find?
          (fun x => ! Kw.hasKey dkw x) = none →
        (Incidents.post c http kwargs).requests.map Request.url =
          [c.endpoint ++ "/" ++ "incidents"] ∧
        (Incidents.post c http kwargs).requests.map Request.method =
          ["POST"])) ∧
    ((∀ a, ["id"].find? (fun x => ! Kw.hasKey kwargs x) = some a →
        Incidents.put c http kwargs =
          ⟨c, [], .error (.keyError ("Required argument: " ++ a))⟩) ∧
      (["id"].find? (fun x => ! Kw.hasKey kwargs x) = none →
        ∃ i, Kw.get kwargs "id" = some i ∧
          (Incidents.put c http kwargs).requests.map Request.url =
            [c.endpoint ++ "/" ++ ("incidents/" ++ pyStr i)] ∧
          (Incidents.put c http kwargs).requests.map Request.method =
            ["PUT"])) ∧
    (∀ dkw : Kw, dkw = Kw.setdefault kwargs "default_value"
        ((Kw.get kwargs "default_value").getD (.num 0)) →
      (∀ a, ["name", "suffix", "description", "default_value"].find?
          (fun x => ! Kw.hasKey dkw x) = some a →
        Metrics.post c http kwargs =
          ⟨c, [], .error (.keyError ("Required argument: " ++ a))⟩) ∧
      (["name", "suffix", "description", "default_value"].find?
          (fun x => ! Kw.hasKey dkw x) = none →
        (Metrics.post c http kwargs).requests.map Request.url =
          [c.endpoint ++ "/" ++ "metrics"] ∧
        (Metrics.post c http kwargs).requests.map Request.method =
          ["POST"])) ∧
    ((∀ a, ["id", "value"].find? (fun x => ! Kw.hasKey kwargs x) = some a →
        Points.post c http kwargs =
          ⟨c, [], .error (.keyError ("Required argument: " ++ a))⟩) ∧
      (["id", "value"].find? (fun x => ! Kw.hasKey kwargs x) = none →
        ∃ i, Kw.get kwargs "id" = some i ∧
          (Points.post c http kwargs).requests.map Request.url =
            [c.endpoint ++ "/" ++ ("metrics/" ++ pyStr i ++ "/points")] ∧
          (Points.post c http kwargs).requests.map Request.method =
            ["POST"])) ∧
    ((∀ a, ["email"].find? (fun x => ! Kw.hasKey kwargs x) = some a →
        Subscribers.post c http kwargs =
          ⟨c, [], .error (.keyError ("Required argument: " ++ a))⟩) ∧
      (["email"].find? (fun x => ! Kw.hasKey kwargs x) = none →
        (Subscribers.post c http kwargs).requests.map Request.url =
          [c.endpoint ++ "/" ++ "subscribers"] ∧
        (Subscribers.post c http kwargs).requests.map Request.method =
          ["POST"])) := by
  refine ⟨?_, ⟨?_, ?_⟩, ⟨?_, ?_⟩, ⟨?_, ?_⟩, ?_, ⟨?_, ?_⟩, ?_, ⟨?_, ?_⟩,
    ⟨?_, ?_⟩⟩
  -- Components.post
  · intro dkw hdkw
    have e1 : Components.post c http kwargs =
        checkThen c ["name", "status", "enabled"] dkw
          (fun _ => c._post http "components" (some dkw)) := by
      have g : Components.post c http kwargs =
          Components.post_body c http kwargs := api_token_required_some c _ t ht
      rw [g]
      show Components.post_body c http kwargs = _
      simp only [Components.post_body]
      rw [← hdkw]
    constructor
    · intro a ha
      rw [e1]
      exact checkThen_error c _ _ _ a ha
    · intro hok
      rw [e1, checkThen_ok c _ _ _ hok, CachetClient.post_eq]
      exact ⟨rfl, rfl⟩
  -- Components.put, error case
  · intro a ha
    have e1 : Components.put c http kwargs =
        checkThen c ["id"] kwargs (fun _ => getItemThen c kwargs "id"
          (fun i => c._put http ("components/" ++ pyStr i) (some kwargs))) :=
      api_token_required_some c _ t ht
    rw [e1]
    exact checkThen_error c _ _ _ a ha
  -- Components.put, success case
  · intro hok
    have e1 : Components.put c http kwargs =
        checkThen c ["id"] kwargs (fun _ => getItemThen c kwargs "id"
          (fun i => c._put http ("components/" ++ pyStr i) (some kwargs))) :=
      api_token_required_some c _ t ht
    have hid : Kw.hasKey kwargs "id" = true := by
      cases hk : Kw.hasKey kwargs "id"
      · rw [List.find?_cons_of_pos _ (by simp [hk])] at hok
        simp at hok
      · rfl
    obtain ⟨i, hi⟩ := Kw.exists_get_of_hasKey kwargs "id" hid
    refine ⟨i, hi, ?_, ?_⟩ <;>
      · rw [e1, checkThen_ok c _ _ _ hok,
          getItemThen_some c kwargs "id" _ i hi, CachetClient.put_eq]
        rfl
  -- Groups.post
  · intro a ha
    have e1 : Groups.post c http kwargs =
        checkThen c ["name"] kwargs
          (fun _ => c._post http "components/groups" (some kwargs)) :=
      api_token_required_some c _ t ht
    rw [e1]
    exact checkThen_error c _ _ _ a ha
  · intro hok
    have e1 : Groups.post c http kwargs =
        checkThen c ["name"] kwargs
          (fun _ => c._post http "components/groups" (some kwargs)) :=
      api_token_required_some c _ t ht
    rw [e1, checkThen_ok c _ _ _ hok, CachetClient.post_eq]
    exact ⟨rfl, rfl⟩
  -- Groups.put
  · intro a ha
    have e1 : Groups.put c http kwargs =
        checkThen c ["id"] kwargs (fun _ => getItemThen c kwargs "id"
          (fun i => c._put http ("components/groups/" ++ pyStr i)
            (some kwargs))) :=
      api_token_required_some c _ t ht
    rw [e1]
    exact checkThen_error c _ _ _ a ha
  · intro hok
    have e1 : Groups.put c http kwargs =
        checkThen c ["id"] kwargs (fun _ => getItemThen c kwargs "id"
          (fun i => c._put http ("components/groups/" ++ pyStr i)
            (some kwargs))) :=
      api_token_required_some c _ t ht
    have hid : Kw.hasKey kwargs "id" = true := by
      cases hk : Kw.hasKey kwargs "id"
      · rw [List.find?_cons_of_pos _ (by simp [hk])] at hok
        simp at hok
      · rfl
    obtain ⟨i, hi⟩ := Kw.exists_get_of_hasKey kwargs "id" hid
    refine ⟨i, hi, ?_, ?_⟩ <;>
      · rw [e1, checkThen_ok c _ _ _ hok,
          getItemThen_some c kwargs "id" _ i hi, CachetClient.put_eq]
        rfl
  -- Incidents.post
  · intro dkw hdkw
    have e1 : Incidents.post c http kwargs =
        checkThen c ["name", "message", "status", "visible", "notify"] dkw
          (fun _ => c._post http "incidents" (some dkw)) := by
      have g : Incidents.post c http kwargs =
          Incidents.post_body c http kwargs := api_token_required_some c _ t ht
      rw [g]
      show Incidents.post_body c http kwargs = _
      simp only [Incidents.post_body]
      rw [← hdkw]
    constructor
    · intro a ha
      rw [e1]
      exact checkThen_error c _ _ _ a ha
    · intro hok
      rw [e1, checkThen_ok c _ _ _ hok, CachetClient.post_eq]
      exact ⟨rfl, rfl⟩
  -- Incidents.put
  · intro a ha
    have e1 : Incidents.put c http kwargs =
        checkThen c ["id"] kwargs (fun _ => getItemThen c kwargs "id"
          (fun i => c._put http ("incidents/" ++ pyStr i) (some kwargs))) :=
      api_token_required_some c _ t ht
    rw [e1]
    exact checkThen_error c _ _ _ a ha
  · intro hok
    have e1 : Incidents.put c http kwargs =
        checkThen c ["id"] kwargs (fun _ => getItemThen c kwargs "id"
          (fun i => c._put http ("incidents/" ++ pyStr i) (some kwargs))) :=
      api_token_required_some c _ t ht
    have hid : Kw.hasKey kwargs "id" = true := by
      cases hk : Kw.hasKey kwargs "id"
      · rw [List.find?_cons_of_pos _ (by simp [hk])] at hok
        simp at hok
      · rfl
    obtain ⟨i, hi⟩ := Kw.exists_get_of_hasKey kwargs "id" hid
    refine ⟨i, hi, ?_, ?_⟩ <;>
      · rw [e1, checkThen_ok c _ _ _ hok,
          getItemThen_some c kwargs "id" _ i hi, CachetClient.put_eq]
        rfl
  -- Metrics.post
  · intro dkw hdkw
    have e1 : Metrics.post c http kwargs =
        checkThen c ["name", "suffix", "description", "default_value"] dkw
          (fun _ => c._post http "metrics" (some dkw)) := by
      have g : Metrics.post c http kwargs =
          Metrics.post_body c http kwargs := api_token_required_some c _ t ht
      rw [g]
      show Metrics.post_body c http kwargs = _
      simp only [Metrics.post_body]
      rw [← hdkw]
    constructor
    · intro a ha
      rw [e1]
      exact checkThen_error c _ _ _ a ha
    · intro hok
      rw [e1, checkThen_ok c _ _ _ hok, CachetClient.post_eq]
      exact ⟨rfl, rfl⟩
  -- Points.post
  · intro a ha
    have e1 : Points.post c http kwargs =
        checkThen c ["id", "value"] kwargs (fun _ => getItemThen c kwargs "id"
          (fun i => c._post http ("metrics/" ++ pyStr i ++ "/points")
            (some kwargs))) :=
      api_token_required_some c _ t ht
    rw [e1]
    exact checkThen_error c _ _ _ a ha
  · intro hok
    have e1 : Points.post c http kwargs =
        checkThen c ["id", "value"] kwargs (fun _ => getItemThen c kwargs "id"
          (fun i => c._post http ("metrics/" ++ pyStr i ++ "/points")
            (some kwargs))) :=
      api_token_required_some c _ t ht
    have hid : Kw.hasKey kwargs "id" = true := by
      cases hk : Kw.hasKey kwargs "id"
      · rw [List.find?_cons_of_pos _ (by simp [hk])] at hok
        simp at hok
      · rfl
    obtain ⟨i, hi⟩ := Kw.exists_get_of_hasKey kwargs "id" hid
    refine ⟨i, hi, ?_, ?_⟩ <;>
      · rw [e1, checkThen_ok c _ _ _ hok,
          getItemThen_some c kwargs "id" _ i hi, CachetClient.post_eq]
        rfl
  -- Subscribers.post
  · intro a ha
    have e1 : Subscribers.post c http kwargs =
        checkThen c ["email"] kwargs
          (fun _ => c._post http "subscribers" (some kwargs)) :=
      api_token_required_some c _ t ht
    rw [e1]
    exact checkThen_error c _ _ _ a ha
  · intro hok
    have e1 : Subscribers.post c http kwargs =
        checkThen c ["email"] kwargs
          (fun _ => c._post http "subscribers" (some kwargs)) :=
      api_token_required_some c _ t ht
    rw [e1, checkThen_ok c _ _ _ hok, CachetClient.post_eq]
    exact ⟨rfl, rfl⟩

theorem C4_required_args_witness :
    Components.post cW httpOk [] =
      ⟨cW, [], .error (.keyError "Required argument: name")⟩ ∧
    Points.post cW httpOk [("id", .num 5)] =
      ⟨cW, [], .error (.keyError "Required argument: value")⟩ ∧
    ((Subscribers.post cW httpOk [("email", .str "a@b.c")]).requests.map
        Request.url = [cW.endpoint ++ "/" ++ "subscribers"] ∧
     (Subscribers.post cW httpOk [("email", .str "a@b.c")]).requests.map
        Request.method = ["POST"]) :=
  ⟨((C4_required_args cW "tok" httpOk [] rfl).1
      (Kw.setdefault [] "enabled" ((Kw.get [] "enabled").getD (.bool true)))
      rfl).1 "name" (by decide),
   ((C4_required_args cW "tok" httpOk [("id", .num 5)] rfl).2.2.2.2.2.2.2.1).1
      "value" (by decide),
   ((C4_required_args cW "tok" httpOk [("email", .str "a@b.c")]
      rfl).2.2.2.2.2.2.2.2).2 (by decide)⟩

/-- **C1 counterexample**: the claim fails at two explicit concrete inputs.

First, the claim quantifies over Components, Groups, Incidents, Metrics
*and Points*, asserting that `get` without an id issues a request to the
bare collection path: at the concrete input `Points.get` with no
`metric_id` (client `cW`, transport `httpOk`, no keyword arguments), the
code issues **no** request at all and instead raises `AttributeError`;
Points has no bare collection path.

Second, the claim asserts the extra keyword arguments are forwarded "as
query-string parameters of that request": at the concrete input
`Components.get` without an id and with the keyword argument `per_page=5`,
the single request handed to the transport — exhibited in full — carries
`per_page` only in its `data` field, JSON-encoded (`cachet.py` line 122
passes `data=kwargs`, which `client.py` line 53 turns into the JSON request
body; `requests`' query-string mechanism, the `params` argument or a `?`
suffix on the URL, is never used), while the request's URL is the bare
collection path containing no `?` query separator. -/
theorem C1_counterexample :
    ((Points.get cW httpOk none []).requests = [] ∧
     (Points.get cW httpOk none []).result =
       .error (.attributeError "metric_id is required to get metric points.")) ∧
    ((Components.get cW httpOk none [("per_page", .num 5)]).requests =
      [⟨"GET", "http://status.example/api/v1/components",
        [("User-Agent", "python-cachetclient"), ("Accept", "application/json"),
         ("Content-Type", "application/json"), ("X-Cachet-Token", "tok")],
        some "\x7b\"per_page\": 5\x7d", none, none⟩] ∧
     (Components.get cW httpOk none [("per_page", .num 5)]).requests.all
       (fun r => r.url.data.all (fun ch => decide (ch ≠ Char.ofNat 63))) =
       true) :=
  ⟨⟨rfl, rfl⟩, rfl, by decide⟩

/-- **C1 (amended)**: For Components, Groups, Incidents and Metrics, `get`
with an id issues one GET request to `<resource>/<id>`, and `get` without an
id issues one GET request to the bare collection path with every extra
keyword argument forwarded in that request's JSON-encoded `data` payload —
the request body — rather than as query-string parameters; the URL is the
bare path and Components' by-id branch forwards no payload. For Points,
`get` with a `metric_id` issues one GET to `metrics/<metric_id>/points`
(forwarding the keyword arguments likewise), and without a `metric_id` it
raises `AttributeError` with no request issued. -/
theorem C1_get_paths (c : CachetClient) (http : Http) (i : Json)
    (kwargs : Kw) :
    (Components.get c http (some i) kwargs).requests.map
        (fun r => (r.method, r.url, r.data)) =
      [("GET", c.endpoint ++ "/" ++ ("components/" ++ pyStr i), none)] ∧
    (Components.get c http none kwargs).requests.map
        (fun r => (r.method, r.url, r.data)) =
      [("GET", c.endpoint ++ "/" ++ "components",
        some (Json.dumps (.obj kwargs)))] ∧
    (Groups.get c http (some i) kwargs).requests.map
        (fun r => (r.method, r.url, r.data)) =
      [("GET", c.endpoint ++ "/" ++ ("components/groups/" ++ pyStr i),
        some (Json.dumps (.obj kwargs)))] ∧
    (Groups.get c http none kwargs).requests.map
        (fun r => (r.method, r.url, r.data)) =
      [("GET", c.endpoint ++ "/" ++ "components/groups",
        some (Json.dumps (.obj kwargs)))] ∧
    (Incidents.get c http (some i) kwargs).requests.map
        (fun r => (r.method, r.url, r.data)) =
      [("GET", c.endpoint ++ "/" ++ ("incidents/" ++ pyStr i),
        some (Json.dumps (.obj kwargs)))] ∧
    (Incidents.get c http none kwargs).requests.map
        (fun r => (r.method, r.url, r.data)) =
      [("GET", c.endpoint ++ "/" ++ "incidents",
        some (Json.dumps (.obj kwargs)))] ∧
    (Metrics.get c http (some i) kwargs).requests.map
        (fun r => (r.method, r.url, r.data)) =
      [("GET", c.endpoint ++ "/" ++ ("metrics/" ++ pyStr i),
        some (Json.dumps (.obj kwargs)))] ∧
    (Metrics.get c http none kwargs).requests.map
        (fun r => (r.method, r.url, r.data)) =
      [("GET", c.endpoint ++ "/" ++ "metrics",
        some (Json.dumps (.obj kwargs)))] ∧
    (Points.get c http (some i) kwargs).requests.map
        (fun r => (r.method, r.url, r.data)) =
      [("GET", c.endpoint ++ "/" ++ ("metrics/" ++ pyStr i ++ "/points"),
        some (Json.dumps (.obj kwargs)))] ∧
    (Points.get c http none kwargs).requests = [] ∧
    (Points.get c http none kwargs).result =
      .error (.attributeError "metric_id is required to get metric points.") := by
  refine ⟨?_, ?_, ?_, ?_, ?_, ?_, ?_, ?_, ?_, rfl, rfl⟩
  · show ((c._get http ("components/" ++ pyStr i) none).requests).map _ = _
    rw [CachetClient.get_eq]
    rfl
  · show ((c._get http "components" (some kwargs)).requests).map _ = _
    rw [CachetClient.get_eq]
    rfl
  · show ((c._get http ("components/groups/" ++ pyStr i)
      (some kwargs)).requests).map _ = _
    rw [CachetClient.get_eq]
    rfl
  · show ((c._get http "components/groups" (some kwargs)).requests).map _ = _
    rw [CachetClient.get_eq]
    rfl
  · show ((c._get http ("incidents/" ++ pyStr i) (some kwargs)).requests).map _ = _
    rw [CachetClient.get_eq]
    rfl
  · show ((c._get http "incidents" (some kwargs)).requests).map _ = _
    rw [CachetClient.get_eq]
    rfl
  · show ((c._get http ("metrics/" ++ pyStr i) (some kwargs)).requests).map _ = _
    rw [CachetClient.get_eq]
    rfl
  · show ((c._get http "metrics" (some kwargs)).requests).map _ = _
    rw [CachetClient.get_eq]
    rfl
  · show ((c._get http ("metrics/" ++ pyStr i ++ "/points")
      (some kwargs)).requests).map _ = _
    rw [CachetClient.get_eq]
    rfl
